import Mathlib

/-
Verification development for the ecometrics multi-company layer.

Shallow embedding of `src/ecometrics/company_manager.py` (CompanyManager),
`src/ecometrics/data_uploader.py` (DataUploader) and the query-cache
behaviour of `src/ecometrics/data_connector.py` (DuckDBConnection.query).

Modelling conventions:
- pandas DataFrames are column-oriented: a list of (column name, cell list)
  pairs.  `df.rename` maps column names, `df[c] = x` appends a column.
- Cell values are exact: numbers are rationals, already-parsed datetimes are
  `Value.date`; a string cell stands for a token `pd.to_datetime` cannot
  parse.  A column is of numeric dtype iff every cell is a number.
- JSON blobs are a `Json` inductive; `json.dumps`/`json.loads` at the
  persistence boundary are inverse bijections on such values, so the store
  keeps the `Json` value itself.
- `DuckDBConnection.query` memoises each call by (query text, parameters)
  with no write invalidation.  Query texts are distinct per call site, so
  the cache is modelled per site, keyed by the parameters of that site
  (`readCache` for the config SELECT, `writeCache` for the config
  INSERT OR REPLACE, `companyInsertCache` for the INSERT INTO companies).
  TTL expiry is not modelled: all claims concern immediate sequences.
- `save_data` goes through `cursor.execute` directly and is not cached.
- Python dicts are association lists in insertion order; `d[k] = v` and
  `d.update` replace in place or append (`dictInsert` / `dictUpdate`).
-/

namespace EcoMetrics

/-- JSON values (`json.dumps` / `json.loads` round-trip is identity on these). -/
inductive Json where
  | null
  | bool (b : Bool)
  | num (q : Rat)
  | str (s : String)
  | arr (elems : List Json)
  | obj (fields : List (String × Json))

/-- Structural equality on JSON values, mirroring Python `==` on parsed JSON. -/
def Json.beq : Json → Json → Bool
  | .null, .null => true
  | .bool a, .bool b => a == b
  | .num a, .num b => a == b
  | .str a, .str b => a == b
  | .arr [], .arr [] => true
  | .arr (a :: as), .arr (bs : List Json) =>
      match bs with
      | [] => false
      | b :: bs => Json.beq a b && Json.beq (Json.arr as) (Json.arr bs)
  | .obj [], .obj [] => true
  | .obj ((k1, v1) :: fs1), .obj (gs : List (String × Json)) =>
      match gs with
      | [] => false
      | (k2, v2) :: fs2 =>
          k1 == k2 && Json.beq v1 v2 && Json.beq (Json.obj fs1) (Json.obj fs2)
  | _, _ => false

/-- Python key lookup `j[k]` / `j.get(k)` on a JSON object. -/
def Json.lookup (j : Json) (k : String) : Option Json :=
  match j with
  | .obj fs => (fs.find? (fun p => p.1 == k)).map Prod.snd
  | _ => none

/-- Python truthiness of a parsed JSON value. -/
def Json.truthy : Json → Bool
  | .null => false
  | .bool b => b
  | .num q => q != 0
  | .str s => s != ""
  | .arr xs => !xs.isEmpty
  | .obj fs => !fs.isEmpty

/-- The `.items()` view of a JSON object (empty for non-objects). -/
def Json.objFields : Json → List (String × Json)
  | .obj fs => fs
  | _ => []

/-- A calendar date; comparisons are lexicographic, matching pandas
Timestamp ordering on valid dates. -/
structure Date where
  year : Nat
  month : Nat
  day : Nat
deriving DecidableEq, Repr

/-- Strict order on dates (`<` between pandas Timestamps). -/
def Date.ltb (a b : Date) : Bool :=
  if a.year = b.year then
    (if a.month = b.month then decide (a.day < b.day) else decide (a.month < b.month))
  else decide (a.year < b.year)

/-- A cell of a DataFrame. -/
inductive Value where
  | num (q : Rat)
  | str (s : String)
  | date (d : Date)
deriving DecidableEq, Repr

/-- A pandas DataFrame, column-oriented. -/
structure DataFrame where
  cols : List (String × List Value)
deriving DecidableEq, Repr

/-- The column-name list `df.columns`. -/
def DataFrame.columns (df : DataFrame) : List String := df.cols.map Prod.fst

/-- Membership test `c in df.columns`. -/
def DataFrame.hasCol (df : DataFrame) (c : String) : Bool := df.columns.contains c

/-- Column access `df[c]` (first matching column). -/
def DataFrame.getCol (df : DataFrame) (c : String) : List Value :=
  ((df.cols.find? (fun p => p.1 == c)).map Prod.snd).getD []

/-- Row count `len(df)`. -/
def DataFrame.nrows (df : DataFrame) : Nat :=
  ((df.cols.head?).map (fun p => p.2.length)).getD 0

/-- Column assignment `df[new] = values` for fresh names: appends columns. -/
def DataFrame.extend (df : DataFrame) (fill : List (String × List Value)) : DataFrame :=
  DataFrame.mk (df.cols ++ fill)

/-- Python `d[k] = v` on an insertion-ordered dict. -/
def dictInsert {α : Type} (k : String) (v : α) (d : List (String × α)) : List (String × α) :=
  if d.any (fun p => p.1 == k) then d.map (fun p => if p.1 == k then (k, v) else p)
  else d ++ [(k, v)]

/-- Python `d.update(u)` on insertion-ordered dicts. -/
def dictUpdate {α : Type} (d u : List (String × α)) : List (String × α) :=
  u.foldl (fun acc p => dictInsert p.1 p.2 acc) d

/-- A row of the `companies` table (also the parameter tuple of the
INSERT INTO companies statement, which keys its query-cache entry). -/
structure CompanyRow where
  company_id : String
  company_name : String
  industry : String
  description : String
  settings : Json

/-- Equality of `companies` INSERT parameter tuples (cache keys). -/
def rowEq (a b : CompanyRow) : Bool :=
  a.company_id == b.company_id && a.company_name == b.company_name &&
    a.industry == b.industry && a.description == b.description &&
    Json.beq a.settings b.settings

/-- State of the store as seen through CompanyManager plus the per-site
query caches of `DuckDBConnection.query`. -/
structure CMState where
  companies : List CompanyRow
  configs : List ((String × String) × Json)
  readCache : List ((String × String) × Option Json)
  writeCache : List (String × String × Json)
  companyInsertCache : List CompanyRow

/-- A fresh database with cold caches. -/
def initState : CMState := CMState.mk [] [] [] [] []

/-- SELECT config_data FROM company_configs WHERE company_id = c AND config_type = k. -/
def configsLookup (s : CMState) (c k : String) : Option Json :=
  (s.configs.find? (fun p => p.1.1 == c && p.1.2 == k)).map Prod.snd

/-- INSERT OR REPLACE INTO company_configs: replace the row with primary key
(c, k) in place, or append a new row. -/
def configsInsert (c k : String) (v : Json) (d : List ((String × String) × Json)) :
    List ((String × String) × Json) :=
  if d.any (fun p => p.1.1 == c && p.1.2 == k) then
    d.map (fun p => if p.1.1 == c && p.1.2 == k then ((c, k), v) else p)
  else d ++ [((c, k), v)]

/-- Cached result, if any, of the config SELECT for parameters (c, k). -/
def readCacheLookup (s : CMState) (c k : String) : Option (Option Json) :=
  (s.readCache.find? (fun p => p.1.1 == c && p.1.2 == k)).map Prod.snd

/-- Whether the config INSERT OR REPLACE for parameters (c, k, v) is cached
(in which case `query` skips executing it). -/
def writeCacheHit (s : CMState) (c k : String) (v : Json) : Bool :=
  s.writeCache.any (fun t => t.1 == c && t.2.1 == k && Json.beq t.2.2 v)

/-- Whether the INSERT INTO companies with this parameter tuple is cached. -/
def companyInsertCacheHit (s : CMState) (r : CompanyRow) : Bool :=
  s.companyInsertCache.any (fun q => rowEq q r)

/-- CompanyManager.update_company_config: INSERT OR REPLACE through the
cached `query`; a cache hit skips the execution.  The statement itself
cannot fail, so the exception branch of the source is unreachable and the call
returns True. -/
def update_company_config (s : CMState) (company_id config_type : String)
    (config_data : Json) : CMState × Bool :=
  if writeCacheHit s company_id config_type config_data then (s, true)
  else
    ({ s with
        configs := configsInsert company_id config_type config_data s.configs,
        writeCache := s.writeCache ++ [(company_id, config_type, config_data)] }, true)

/-- CompanyManager.get_company_config: SELECT through the cached `query`
(a hit returns the memoised result without touching the table), then
`json.loads` of the row if present, else None. -/
def get_company_config (s : CMState) (company_id config_type : String) :
    CMState × Option Json :=
  match readCacheLookup s company_id config_type with
  | some r => (s, r)
  | none =>
      let r := configsLookup s company_id config_type
      ({ s with readCache := s.readCache ++ [((company_id, config_type), r)] }, r)

/-- CompanyManager.get_company_schema_mapping. -/
def get_company_schema_mapping (s : CMState) (company_id data_type : String) :
    CMState × List (String × Json) :=
  let gc := get_company_config s company_id "schema"
  match gc.2 with
  | some j =>
      if j.truthy && (j.lookup "mappings").isSome then
        (gc.1, ((((j.lookup "mappings").getD Json.null).lookup data_type).getD
          (Json.obj [])).objFields)
      else (gc.1, [])
  | none => (gc.1, [])

/-- The loop of CompanyManager.transform_company_data building
`column_mapping`: for each (standard_col, company_col) item of the mapping,
if company_col is a column of df and differs from standard_col, record the
rename company_col → standard_col. -/
def buildColumnMapping (mapping : List (String × Json)) (df : DataFrame) :
    List (String × String) :=
  mapping.foldl (fun cm p =>
    match p.2 with
    | .str company_col =>
        if df.hasCol company_col && p.1 != company_col then
          dictInsert company_col p.1 cm
        else cm
    | _ => cm) []

/-- Pandas rename with the column_mapping dict: map every column name through the
dict, leaving unmapped names unchanged. -/
def renameWith (cm : List (String × String)) (df : DataFrame) : DataFrame :=
  DataFrame.mk (df.cols.map (fun p =>
    (((cm.find? (fun q => q.1 == p.1)).map Prod.snd).getD p.1, p.2)))

/-- The trailing block of transform_company_data: append a company_id column
broadcasting the tenant identifier, unless one is already present. -/
def addCompanyId (df : DataFrame) (company_id : String) : DataFrame :=
  if df.hasCol "company_id" then df
  else DataFrame.mk (df.cols ++
    [("company_id", List.replicate df.nrows (Value.str company_id))])

/-- Body of CompanyManager.transform_company_data after the mapping lookup:
empty mapping returns df as-is; otherwise rename per `column_mapping` (when
non-empty), then append a company_id column if none is present. -/
def transform_pure (mapping : List (String × Json)) (df : DataFrame)
    (company_id : String) : DataFrame :=
  if mapping.isEmpty then df
  else
    addCompanyId
      (if (buildColumnMapping mapping df).isEmpty then df
       else renameWith (buildColumnMapping mapping df) df)
      company_id

/-- CompanyManager.transform_company_data. -/
def transform_company_data (s : CMState) (df : DataFrame)
    (company_id data_type : String) : CMState × DataFrame :=
  let gm := get_company_schema_mapping s company_id data_type
  (gm.1, transform_pure gm.2 df company_id)

/-- The industry_products table of CompanyManager._get_default_products. -/
def industry_products : List (String × List String) := [
  ("Packaging", ["Plastic Containers", "Paper Packaging", "Glass Bottles",
    "Aluminum Cans", "Biodegradable Packaging"]),
  ("Manufacturing", ["Electronics", "Automotive", "Machinery", "Textiles"]),
  ("Retail", ["Apparel", "Electronics", "Home Goods", "Food"]),
  ("Food & Beverage", ["Beverages", "Snacks", "Dairy", "Frozen Foods"]),
  ("Pharmaceutical", ["Prescription Drugs", "Over-the-Counter", "Medical Devices"]),
  ("Technology", ["Software", "Hardware", "Services", "Cloud Solutions"])]

/-- CompanyManager._get_default_products (`industry` may be None). -/
def get_default_products (industry : Option String) : List String :=
  match industry with
  | some i =>
      ((industry_products.find? (fun p => p.1 == i)).map Prod.snd).getD
        ["Product A", "Product B", "Product C"]
  | none => ["Product A", "Product B", "Product C"]

/-- base_mappings of CompanyManager._get_default_schema_mappings. -/
def base_mappings : List (String × List (String × String)) := [
  ("sales", [
    ("product_column", "product_line"),
    ("region_column", "region"),
    ("customer_column", "customer_segment"),
    ("date_column", "date"),
    ("quantity_column", "units_sold"),
    ("revenue_column", "revenue"),
    ("cost_column", "cost_of_goods")]),
  ("esg", [
    ("product_column", "product_line"),
    ("facility_column", "facility"),
    ("date_column", "date"),
    ("emissions_column", "emissions_kg_co2"),
    ("energy_column", "energy_consumption_kwh"),
    ("water_column", "water_usage_liters")])]

/-- industry_mappings of CompanyManager._get_default_schema_mappings. -/
def industry_mappings : List (String × List (String × List (String × String))) := [
  ("Manufacturing", [
    ("sales", [
      ("product_column", "product_category"),
      ("region_column", "location"),
      ("customer_column", "client_type")])]),
  ("Retail", [
    ("sales", [
      ("product_column", "category"),
      ("region_column", "store_location"),
      ("customer_column", "customer_type")])])]

/-- CompanyManager._get_default_schema_mappings: base mappings, with the
per-industry sales overrides merged in via dict update. -/
def get_default_schema_mappings (industry : Option String) :
    List (String × List (String × String)) :=
  match industry.bind (fun i =>
      (industry_mappings.find? (fun p => p.1 == i)).map Prod.snd) with
  | none => base_mappings
  | some ov =>
      ov.foldl (fun m p =>
        if m.any (fun q => q.1 == p.1) then
          dictInsert p.1
            (dictUpdate (((m.find? (fun q => q.1 == p.1)).map Prod.snd).getD []) p.2) m
        else m) base_mappings

/-- base_metrics of CompanyManager._get_default_metrics. -/
def base_metrics : List (String × List String) := [
  ("financial", ["revenue", "profit_margin", "cost_of_goods"]),
  ("esg", ["emissions", "energy_consumption", "recycled_content"]),
  ("operational", ["units_produced", "efficiency", "quality_score"])]

/-- industry_metrics of CompanyManager._get_default_metrics. -/
def industry_metrics : List (String × List (String × List String)) := [
  ("Manufacturing", [
    ("financial", ["revenue", "profit_margin", "production_cost"]),
    ("esg", ["emissions", "energy_consumption", "waste_generation"]),
    ("operational", ["units_produced", "defect_rate", "efficiency"])]),
  ("Retail", [
    ("financial", ["sales", "profit_margin", "inventory_cost"]),
    ("esg", ["emissions", "energy_consumption", "packaging_waste"]),
    ("operational", ["units_sold", "inventory_turnover", "customer_satisfaction"])])]

/-- CompanyManager._get_default_metrics. -/
def get_default_metrics (industry : Option String) : List (String × List String) :=
  match industry.bind (fun i =>
      (industry_metrics.find? (fun p => p.1 == i)).map Prod.snd) with
  | some m => m
  | none => base_metrics

/-- JSON encoding of a list of strings. -/
def strListToJson (l : List String) : Json := Json.arr (l.map Json.str)

/-- JSON encoding of a string-to-string dict. -/
def strMapToJson (m : List (String × String)) : Json :=
  Json.obj (m.map (fun p => (p.1, Json.str p.2)))

/-- JSON encoding of the nested schema mappings dict. -/
def mappingsToJson (m : List (String × List (String × String))) : Json :=
  Json.obj (m.map (fun p => (p.1, strMapToJson p.2)))

/-- JSON encoding of the metrics dict. -/
def metricsToJson (m : List (String × List String)) : Json :=
  Json.obj (m.map (fun p => (p.1, strListToJson p.2)))

/-- CompanyManager._initialize_default_configs: write the three default
config entries through update_company_config. -/
def initialize_default_configs (s : CMState) (company_id : String)
    (industry : Option String) : CMState :=
  let cfgs : List (String × Json) := [
    ("products", Json.obj [("product_lines",
        strListToJson (get_default_products industry))]),
    ("schema", Json.obj [("mappings",
        mappingsToJson (get_default_schema_mappings industry))]),
    ("metrics", metricsToJson (get_default_metrics industry))]
  cfgs.foldl (fun st p => (update_company_config st company_id p.1 p.2).1) s

/-- CompanyManager.create_company: INSERT INTO companies (None arguments
default to empty string / empty dict), then seed the default configs; a
primary-key violation is caught and returns False.  The INSERT runs through
the cached `query`: a cache hit skips the statement (hence raises nothing)
and seeding proceeds. -/
def create_company (s : CMState) (company_id company_name : String)
    (industry description : Option String) (settings : Option Json) :
    CMState × Bool :=
  let row : CompanyRow := CompanyRow.mk company_id company_name
    (industry.getD "") (description.getD "") (settings.getD (Json.obj []))
  if companyInsertCacheHit s row then
    (initialize_default_configs s company_id industry, true)
  else if s.companies.any (fun r => r.company_id == company_id) then
    (s, false)
  else
    let s1 := { s with
      companies := s.companies ++ [row],
      companyInsertCache := s.companyInsertCache ++ [row] }
    (initialize_default_configs s1 company_id industry, true)

/-- Validation error messages of DataUploader, structured. -/
inductive VError where
  | missingColumns (cols : List String)
  | badDate (col : String)
  | notNumeric (col : String)
  | negativeValues (col : String)
  | dateRange
  | invalidDateFormat
  | percentOutOfRange (col : String)
deriving DecidableEq, Repr

/-- Result of DataUploader.validate_data. -/
structure ValidationResult where
  valid : Bool
  errors : List VError
deriving DecidableEq, Repr

/-- DataUploader._get_required_columns. -/
def get_required_columns (data_type : String) : List String :=
  if data_type = "sales" then ["date", "product_line", "units_sold", "revenue"]
  else if data_type = "esg" then
    ["date", "facility", "emissions_kg_co2", "energy_consumption_kwh"]
  else if data_type = "supply_chain" then
    ["date", "supplier", "order_quantity", "order_value"]
  else []

/-- The type_validations table of DataUploader._validate_data_types. -/
def type_validations (data_type : String) : List (String × String) :=
  if data_type = "sales" then
    [("date", "datetime"), ("units_sold", "numeric"), ("revenue", "numeric")]
  else if data_type = "esg" then
    [("date", "datetime"), ("emissions_kg_co2", "numeric"),
      ("energy_consumption_kwh", "numeric")]
  else if data_type = "supply_chain" then
    [("date", "datetime"), ("order_quantity", "numeric"), ("order_value", "numeric")]
  else []

/-- Success of `pd.to_datetime` on a column: every cell is a parsed date. -/
def toDatetime : List Value → Option (List Date)
  | [] => some []
  | Value.date d :: vs => (toDatetime vs).map (fun ds => d :: ds)
  | _ :: _ => none

/-- Whether a cell is numeric. -/
def Value.isNum : Value → Bool
  | .num _ => true
  | _ => false

/-- Numeric dtype check (pd.api.types.is_numeric_dtype): all cells numeric. -/
def isNumericCol (vs : List Value) : Bool := vs.all Value.isNum

/-- One iteration of the _validate_data_types loop for (column, expected type). -/
def typeErrorFor (df : DataFrame) (p : String × String) : Option VError :=
  if df.hasCol p.1 then
    if p.2 = "datetime" then
      match toDatetime (df.getCol p.1) with
      | some _ => none
      | none => some (VError.badDate p.1)
    else if p.2 = "numeric" then
      if isNumericCol (df.getCol p.1) then none else some (VError.notNumeric p.1)
    else none
  else none

/-- DataUploader._validate_data_types. -/
def validate_data_types (df : DataFrame) (data_type : String) : List VError :=
  (type_validations data_type).filterMap (typeErrorFor df)

/-- The positive_columns table of DataUploader._validate_business_rules. -/
def positive_columns (data_type : String) : List String :=
  if data_type = "sales" then ["units_sold", "revenue", "cost_of_goods"]
  else if data_type = "esg" then
    ["emissions_kg_co2", "energy_consumption_kwh", "water_usage_liters"]
  else if data_type = "supply_chain" then ["order_quantity", "order_value"]
  else []

/-- The percentage_columns table of DataUploader._validate_business_rules. -/
def percentage_columns (data_type : String) : List String :=
  if data_type = "esg" then ["recycled_material_pct", "renewable_energy_pct"] else []

/-- Whether a cell is a negative number (`< 0` elementwise). -/
def Value.isNegNum : Value → Bool
  | .num q => decide (q < 0)
  | _ => false

/-- Whether a cell is a number above 100 (`> 100` elementwise). -/
def Value.gtHundred : Value → Bool
  | .num q => decide (100 < q)
  | _ => false

/-- Whether the column has any cell below zero, elementwise. -/
def hasNegative (vs : List Value) : Bool := vs.any Value.isNegNum

/-- The timestamp parsed from "2020-01-01", the lower bound of the allowed date range. -/
def minDate : Date := Date.mk 2020 1 1

/-- The timestamp parsed from "2030-12-31", the upper bound of the allowed date range. -/
def maxDate : Date := Date.mk 2030 12 31

/-- One iteration of the positive-value loop of _validate_business_rules. -/
def negErrorFor (df : DataFrame) (col : String) : Option VError :=
  if df.hasCol col && hasNegative (df.getCol col) then
    some (VError.negativeValues col)
  else none

/-- The date-range block of _validate_business_rules. -/
def dateErrors (df : DataFrame) : List VError :=
  if df.hasCol "date" then
    match toDatetime (df.getCol "date") with
    | some dates =>
        if dates.any (fun d => Date.ltb d minDate) ||
            dates.any (fun d => Date.ltb maxDate d) then
          [VError.dateRange]
        else []
    | none => [VError.invalidDateFormat]
  else []

/-- One iteration of the percentage-range loop of _validate_business_rules. -/
def pctErrorFor (df : DataFrame) (col : String) : Option VError :=
  if df.hasCol col &&
      ((df.getCol col).any Value.isNegNum || (df.getCol col).any Value.gtHundred) then
    some (VError.percentOutOfRange col)
  else none

/-- DataUploader._validate_business_rules: positive-value checks, then the
date-range check, then percentage-range checks, appending errors in order. -/
def validate_business_rules (df : DataFrame) (data_type : String) : List VError :=
  (positive_columns data_type).filterMap (negErrorFor df) ++ dateErrors df ++
    (percentage_columns data_type).filterMap (pctErrorFor df)

/-- DataUploader.get_default_schema. -/
def get_default_schema (data_type : String) : List (String × String) :=
  if data_type = "sales" then [
    ("product_column", "product_line"),
    ("region_column", "region"),
    ("customer_column", "customer_segment"),
    ("date_column", "date"),
    ("quantity_column", "units_sold"),
    ("revenue_column", "revenue"),
    ("cost_column", "cost_of_goods")]
  else if data_type = "esg" then [
    ("product_column", "product_line"),
    ("facility_column", "facility"),
    ("date_column", "date"),
    ("emissions_column", "emissions_kg_co2"),
    ("energy_column", "energy_consumption_kwh"),
    ("water_column", "water_usage_liters")]
  else if data_type = "supply_chain" then [
    ("supplier_column", "supplier"),
    ("date_column", "date"),
    ("quantity_column", "order_quantity"),
    ("value_column", "order_value")]
  else []

/-- The missing-columns list computed by DataUploader.validate_data. -/
def missing_required_columns (df : DataFrame) (data_type : String) : List String :=
  (get_required_columns data_type).filter (fun col => !(df.hasCol col))

/-- DataUploader.validate_data.  The schema config is fetched (through the
cached query) and a local schema value is computed exactly as in the source,
but no later check reads it; the checks depend only on df and data_type. -/
def validate_data (s : CMState) (df : DataFrame) (company_id data_type : String) :
    CMState × ValidationResult :=
  let gc := get_company_config s company_id "schema"
  let schemaLocal : Json :=
    match gc.2 with
    | some j =>
        if j.truthy && (j.lookup "mappings").isSome then
          (((j.lookup "mappings").getD Json.null).lookup data_type).getD (Json.obj [])
        else strMapToJson (get_default_schema data_type)
    | none => strMapToJson (get_default_schema data_type)
  let missing := missing_required_columns df data_type
  let errors :=
    (if missing.isEmpty then [] else [VError.missingColumns missing]) ++
      validate_data_types df data_type ++ validate_business_rules df data_type
  let _unused := schemaLocal
  (gc.1, ValidationResult.mk errors.isEmpty errors)

/-- Full application state: configs plus the staging tables written by
DataUploader.save_data (name → table contents). -/
structure AppState where
  cm : CMState
  tables : List (String × DataFrame)

/-- INSERT INTO t SELECT * FROM df: positional append, failing (DuckDB
error, caught by save_data) when the column counts disagree. -/
def appendRows (t df : DataFrame) : Option DataFrame :=
  if t.cols.length = df.cols.length then
    some (DataFrame.mk ((t.cols.zip df.cols).map (fun p => (p.1.1, p.1.2 ++ p.2.2))))
  else none

/-- DataUploader.save_data: CREATE TABLE IF NOT EXISTS the tenant-scoped
staging table from df, then probe the shared staging table and create it or
append to it; an append failure is caught and returns False with the first
write kept (uses cursor.execute directly, so no query cache). -/
def save_data (s : AppState) (df : DataFrame) (company_id data_type : String) :
    AppState × Bool :=
  let staging_table := "stg_" ++ data_type ++ "_data_" ++ company_id
  let tables1 :=
    if s.tables.any (fun p => p.1 == staging_table) then s.tables
    else s.tables ++ [(staging_table, df)]
  let main_staging_table := "stg_" ++ data_type ++ "_data"
  match tables1.find? (fun p => p.1 == main_staging_table) with
  | none => ({ s with tables := tables1 ++ [(main_staging_table, df)] }, true)
  | some p =>
      match appendRows p.2 df with
      | some t2 => ({ s with tables := dictInsert main_staging_table t2 tables1 }, true)
      | none => ({ s with tables := tables1 }, false)

/-- Outcome messages of DataUploader.upload_file, structured. -/
inductive UploadMsg where
  | readFailed
  | validationFailed (errors : List VError)
  | uploadSuccess (nrows : Nat) (company_id : String)
  | saveFailed
deriving DecidableEq, Repr

/-- DataUploader.upload_file, taking the outcome of _read_file as
`parsed` (none = unreadable file): validate, transform, save; every failure
is returned as (False, message), never raised. -/
def upload_file (s : AppState) (parsed : Option DataFrame)
    (company_id data_type : String) : AppState × Bool × UploadMsg :=
  match parsed with
  | none => (s, false, UploadMsg.readFailed)
  | some df =>
      let v := validate_data s.cm df company_id data_type
      if v.2.valid then
        let tr := transform_company_data v.1 df company_id data_type
        let sv := save_data { s with cm := tr.1 } tr.2 company_id data_type
        if sv.2 then (sv.1, true, UploadMsg.uploadSuccess df.nrows company_id)
        else (sv.1, false, UploadMsg.saveFailed)
      else ({ s with cm := v.1 }, false, UploadMsg.validationFailed v.2.errors)

/-- A one-column raw sales dataset used to exhibit the empty-mapping behaviour. -/
def C1df : DataFrame := DataFrame.mk [("date", [Value.date (Date.mk 2023 1 1)])]

/-- C1 counterexample: on a fresh store (tenant schema mapping absent, hence
empty), transform_company_data returns the dataset unchanged, so the output
columns are the input columns WITHOUT a company_id column appended — the
claim that the columns equal input columns plus company_id is false. -/
theorem C1_counterexample :
    (transform_company_data initState C1df "acme" "sales").2 = C1df ∧
    (transform_company_data initState C1df "acme" "sales").2.columns ≠
      C1df.columns ++ ["company_id"] := by
  decide

/-- C1 amended: when the schema mapping of the tenant for the category is empty
or absent, transform_company_data degrades to identity pass-through: it
returns the input dataset unchanged (no rename, no company_id column
appended) and never fails. -/
theorem C1_empty_mapping_identity (s : CMState) (df : DataFrame)
    (company_id data_type : String)
    (h : (get_company_schema_mapping s company_id data_type).2 = []) :
    (transform_company_data s df company_id data_type).2 = df := by
  show transform_pure (get_company_schema_mapping s company_id data_type).2
    df company_id = df
  rw [h]
  rfl

/-- C1 witness: a concrete run of the amended theorem on a fresh store. -/
theorem C1_empty_mapping_identity_witness :
    (get_company_schema_mapping initState "t" "supply_chain").2 = [] ∧
    (transform_company_data initState (DataFrame.mk [("x", [Value.num 1])])
      "t" "supply_chain").2 = DataFrame.mk [("x", [Value.num 1])] :=
  And.intro rfl
    (C1_empty_mapping_identity initState (DataFrame.mk [("x", [Value.num 1])])
      "t" "supply_chain" rfl)

/-- C9: the (valid, errors) result of validate_data is identical for any two
tenant identifiers on the same dataset and category: the fetched tenant
schema configuration is never consulted by the required-column, type, or
business-rule checks. -/
theorem C9_validate_tenant_independent (s : CMState) (df : DataFrame)
    (data_type t1 t2 : String) :
    (validate_data s df t1 data_type).2 = (validate_data s df t2 data_type).2 := rfl

/-- A store in which the sales schema mapping of tenant acme maps canonical
column x to tenant column company_id. -/
def C10state : CMState :=
  (update_company_config initState "acme" "schema"
    (Json.obj [("mappings",
      Json.obj [("sales", Json.obj [("x", Json.str "company_id")])])])).1

/-- A dataset that already carries a company_id column with a tag differing
from the tenant performing the transform. -/
def C10df : DataFrame := DataFrame.mk [("company_id", [Value.str "original"])]

/-- C10 counterexample: with a schema mapping entry whose tenant-specific
column is company_id, transform_company_data renames the existing company_id
column away and then appends a fresh company_id column holding the tenantId
argument — the existing tenant tag is overwritten, contradicting the claim. -/
theorem C10_counterexample :
    (transform_company_data C10state C10df "acme" "sales").2.getCol "company_id" =
      [Value.str "acme"] ∧
    (transform_company_data C10state C10df "acme" "sales").2.getCol "company_id" ≠
      [Value.str "original"] := by
  decide

theorem mem_dictInsert {α : Type} {k : String} {v : α} {d : List (String × α)}
    {x : String × α} (hx : x ∈ dictInsert k v d) : x = (k, v) ∨ x ∈ d := by
  unfold dictInsert at hx
  split at hx
  · rcases List.mem_map.mp hx with ⟨y, hy, hxy⟩
    by_cases h : (y.1 == k) = true
    · left
      rw [← hxy]
      simp [h]
    · right
      rw [← hxy]
      simp only [h, if_false]
      exact hy
  · rcases List.mem_append.mp hx with h | h
    · right
      exact h
    · left
      simpa using h

theorem hasCol_iff (df : DataFrame) (c : String) :
    df.hasCol c = true ↔ ∃ p ∈ df.cols, p.1 = c := by
  simp [DataFrame.hasCol, DataFrame.columns, List.mem_map]

theorem buildColumnMapping_key_ne (df : DataFrame) (c : String) :
    ∀ (m : List (String × Json)) (acc : List (String × String)),
      (∀ p ∈ m, p.2 = Json.str c → p.1 = c) →
      (∀ x ∈ acc, x.1 ≠ c) →
      ∀ x ∈ m.foldl (fun cm p =>
          match p.2 with
          | .str company_col =>
              if df.hasCol company_col && p.1 != company_col then
                dictInsert company_col p.1 cm
              else cm
          | _ => cm) acc, x.1 ≠ c := by
  intro m
  induction m with
  | nil =>
      intro acc _ hacc x hx
      exact hacc x hx
  | cons p ps ih =>
      intro acc hm hacc x hx
      rw [List.foldl_cons] at hx
      refine ih _ (fun q hq hqs => hm q (List.mem_cons_of_mem _ hq) hqs) ?_ x hx
      intro y hy
      revert hy
      cases hp2 : p.2 with
      | str company_col =>
          simp only []
          split
          · intro hy
            rcases mem_dictInsert hy with h | h
            · subst h
              intro hcc
              rename_i hcond
              have hne : p.1 ≠ company_col :=
                bne_iff_ne.mp ((Bool.and_eq_true _ _).mp hcond).2
              have hcc' : company_col = c := hcc
              have hpc : p.1 = c := hm p (List.mem_cons_self p ps) (by rw [hp2, hcc'])
              exact hne (hpc.trans hcc'.symm)
            · exact hacc y h
          · intro hy
            exact hacc y hy
      | null =>
          intro hy
          exact hacc y hy
      | bool b =>
          intro hy
          exact hacc y hy
      | num q =>
          intro hy
          exact hacc y hy
      | arr xs =>
          intro hy
          exact hacc y hy
      | obj fs =>
          intro hy
          exact hacc y hy

theorem transform_pure_preserves_company_id
    (m : List (String × Json)) (df : DataFrame) (cid : String)
    (hdf : df.hasCol "company_id" = true)
    (hmap : ∀ p ∈ m, p.2 = Json.str "company_id" → p.1 = "company_id") :
    (transform_pure m df cid).cols.length = df.cols.length ∧
    ∀ q ∈ df.cols, q.1 = "company_id" → q ∈ (transform_pure m df cid).cols := by
  by_cases hm0 : m.isEmpty
  · unfold transform_pure
    rw [if_pos hm0]
    exact ⟨rfl, fun q hq _ => hq⟩
  · have hkeys : ∀ x ∈ buildColumnMapping m df, x.1 ≠ "company_id" := by
      unfold buildColumnMapping
      exact buildColumnMapping_key_ne df "company_id" m [] hmap
        (fun x hx => absurd hx (List.not_mem_nil x))
    have hfind : (buildColumnMapping m df).find?
        (fun q => q.1 == "company_id") = none := by
      apply List.find?_eq_none.mpr
      intro x hx
      simp only [beq_iff_eq]
      exact hkeys x hx
    by_cases hcm : (buildColumnMapping m df).isEmpty
    · have heq : transform_pure m df cid = df := by
        unfold transform_pure addCompanyId
        rw [if_neg hm0, if_pos hcm, if_pos hdf]
      rw [heq]
      exact ⟨rfl, fun q hq _ => hq⟩
    · have hren : (renameWith (buildColumnMapping m df) df).hasCol "company_id" = true := by
        rcases (hasCol_iff df "company_id").mp hdf with ⟨p, hp, hp1⟩
        apply (hasCol_iff _ _).mpr
        refine ⟨((((buildColumnMapping m df).find?
          (fun q => q.1 == p.1)).map Prod.snd).getD p.1, p.2), ?_, ?_⟩
        · exact List.mem_map.mpr ⟨p, hp, rfl⟩
        · rw [hp1, hfind]
          rfl
      have heq : transform_pure m df cid = renameWith (buildColumnMapping m df) df := by
        unfold transform_pure addCompanyId
        rw [if_neg hm0, if_neg hcm, if_pos hren]
      rw [heq]
      constructor
      · exact List.length_map df.cols _
      · intro q hq hq1
        apply List.mem_map.mpr
        refine ⟨q, hq, ?_⟩
        rw [hq1, hfind]
        exact Prod.ext hq1.symm rfl

/-- C10 amended: provided no schema-mapping entry maps a canonical column
other than company_id to the tenant column company_id, transform_company_data
leaves an existing company_id column and its values in place: no column is
appended and every (company_id, values) column of the input is still a column
of the output, even when the stored tags differ from the tenantId argument. -/
theorem C10_amended (s : CMState) (df : DataFrame) (company_id data_type : String)
    (hdf : df.hasCol "company_id" = true)
    (hmap : ∀ p ∈ (get_company_schema_mapping s company_id data_type).2,
      p.2 = Json.str "company_id" → p.1 = "company_id") :
    (transform_company_data s df company_id data_type).2.cols.length = df.cols.length ∧
    ∀ q ∈ df.cols, q.1 = "company_id" →
      q ∈ (transform_company_data s df company_id data_type).2.cols :=
  transform_pure_preserves_company_id
    (get_company_schema_mapping s company_id data_type).2 df company_id hdf hmap

/-- A store whose tenant t has a Manufacturing-style sales mapping that does
not touch company_id. -/
def C10wstate : CMState :=
  (update_company_config initState "t" "schema"
    (Json.obj [("mappings",
      Json.obj [("sales", Json.obj [("product_column", Json.str "product_category")])])])).1

/-- A dataset with a renamable column and an existing company_id tag. -/
def C10wdf : DataFrame :=
  DataFrame.mk [("product_category", [Value.str "E"]), ("company_id", [Value.str "orig"])]

/-- C10 witness: a concrete run of the amended theorem. -/
theorem C10_amended_witness :
    C10wdf.hasCol "company_id" = true ∧
    (∀ p ∈ (get_company_schema_mapping C10wstate "t" "sales").2,
      p.2 = Json.str "company_id" → p.1 = "company_id") ∧
    ((transform_company_data C10wstate C10wdf "t" "sales").2.cols.length =
        C10wdf.cols.length ∧
      ∀ q ∈ C10wdf.cols, q.1 = "company_id" →
        q ∈ (transform_company_data C10wstate C10wdf "t" "sales").2.cols) := by
  have hmapw : ∀ p ∈ (get_company_schema_mapping C10wstate "t" "sales").2,
      p.2 = Json.str "company_id" → p.1 = "company_id" := by
    have hm : (get_company_schema_mapping C10wstate "t" "sales").2 =
        [("product_column", Json.str "product_category")] := rfl
    rw [hm]
    intro p hp heq
    rcases List.mem_singleton.mp hp with rfl
    injection heq with h
    exact absurd h (by decide)
  exact ⟨by decide, hmapw, C10_amended C10wstate C10wdf "t" "sales" (by decide) hmapw⟩

theorem find?_map_replace (c k : String) (v : Json) :
    ∀ d : List ((String × String) × Json),
      d.any (fun p => p.1.1 == c && p.1.2 == k) = true →
      ((d.map (fun p => if p.1.1 == c && p.1.2 == k then ((c, k), v) else p)).find?
        (fun p => p.1.1 == c && p.1.2 == k)) = some ((c, k), v) := by
  intro d
  induction d with
  | nil =>
      intro h
      simp at h
  | cons a as ih =>
      intro h
      rw [List.map_cons]
      by_cases ha : (a.1.1 == c && a.1.2 == k) = true
      · rw [if_pos ha]
        exact List.find?_cons_of_pos _ (by simp)
      · rw [if_neg ha]
        rw [List.find?_cons_of_neg _ (by simpa using ha)]
        apply ih
        rw [List.any_cons] at h
        simpa [ha] using h

theorem find?_append_none {α : Type} (p : α → Bool) :
    ∀ l1 l2 : List α, l1.find? p = none → (l1 ++ l2).find? p = l2.find? p := by
  intro l1
  induction l1 with
  | nil =>
      intro l2 _
      rfl
  | cons a as ih =>
      intro l2 h
      by_cases ha : p a = true
      · rw [List.find?_cons_of_pos _ ha] at h
        exact absurd h (by simp)
      · rw [List.find?_cons_of_neg _ (by simpa using ha)] at h
        rw [List.cons_append, List.find?_cons_of_neg _ (by simpa using ha)]
        exact ih l2 h

theorem find?_configsInsert (c k : String) (v : Json)
    (d : List ((String × String) × Json)) :
    ((configsInsert c k v d).find? (fun p => p.1.1 == c && p.1.2 == k)) =
      some ((c, k), v) := by
  unfold configsInsert
  by_cases hany : d.any (fun p => p.1.1 == c && p.1.2 == k) = true
  · rw [if_pos hany]
    exact find?_map_replace c k v d hany
  · rw [if_neg hany]
    have hnone : d.find? (fun p => p.1.1 == c && p.1.2 == k) = none := by
      rw [List.find?_eq_none]
      intro x hx hpx
      exact hany (List.any_eq_true.mpr ⟨x, hx, hpx⟩)
    rw [find?_append_none _ d _ hnone]
    exact List.find?_cons_of_pos _ (by simp)

/-- The first config value set in the C7 scenario. -/
def C7v1 : Json := Json.num 1

/-- The replacement config value set in the C7 scenario. -/
def C7v2 : Json := Json.num 2

/-- Store after setConfig(acme, products, v1) on a fresh state. -/
def C7s1 : CMState := (update_company_config initState "acme" "products" C7v1).1

/-- Store after a getConfig(acme, products), which caches the result v1. -/
def C7s2 : CMState := (get_company_config C7s1 "acme" "products").1

/-- Store after setConfig(acme, products, v2): the table now holds v2, but
the read cache still holds v1. -/
def C7s3 : CMState := (update_company_config C7s2 "acme" "products" C7v2).1

/-- C7 counterexample: after a successful setConfig(acme, products, v2), an
immediate getConfig(acme, products) returns the stale cached value v1, not
v2 — the query cache is keyed by (query, params) and never invalidated by
writes, so the round-trip claim is false once a prior read has been cached. -/
theorem C7_counterexample :
    (update_company_config C7s2 "acme" "products" C7v2).2 = true ∧
    (get_company_config C7s3 "acme" "products").2 = some C7v1 ∧
    (get_company_config C7s3 "acme" "products").2 ≠ some C7v2 := by
  have hbeq : Json.beq C7v1 C7v2 = false := by
    simp only [C7v1, C7v2, Json.beq]
    decide
  have hhit : writeCacheHit C7s2 "acme" "products" C7v2 = false := by
    have h2 : C7s2.writeCache = [("acme", "products", C7v1)] := rfl
    simp [writeCacheHit, h2, hbeq]
  have hs3 : C7s3.readCache = [(("acme", "products"), some C7v1)] := by
    unfold C7s3 update_company_config
    simp only [hhit, Bool.false_eq_true, if_false]
    rfl
  have hget : (get_company_config C7s3 "acme" "products").2 = some C7v1 := by
    unfold get_company_config
    rw [show readCacheLookup C7s3 "acme" "products" = some (some C7v1) from by
      unfold readCacheLookup
      rw [hs3]
      rfl]
  refine ⟨?_, hget, ?_⟩
  · unfold update_company_config
    split
    · rfl
    · rfl
  · rw [hget]
    intro h
    injection h with h1
    unfold C7v1 C7v2 at h1
    injection h1 with h2
    exact absurd h2 (by decide)

/-- C7 amended: the set-then-get round trip holds whenever neither query is
served from the cache: if no read for (tenant, kind) has been cached and the
write for (tenant, kind, value) is not a cache hit, then
setConfig(tenant, kind, X) followed immediately by getConfig(tenant, kind)
returns exactly X, the write having replaced any prior value. -/
theorem C7_set_get_roundtrip (s : CMState) (c k : String) (v : Json)
    (hr : readCacheLookup s c k = none)
    (hw : writeCacheHit s c k v = false) :
    (get_company_config (update_company_config s c k v).1 c k).2 = some v := by
  have hupd : (update_company_config s c k v).1 =
      { s with configs := configsInsert c k v s.configs,
               writeCache := s.writeCache ++ [(c, k, v)] } := by
    unfold update_company_config
    simp [hw]
  rw [hupd]
  unfold get_company_config
  have hr2 : readCacheLookup
      { s with configs := configsInsert c k v s.configs,
               writeCache := s.writeCache ++ [(c, k, v)] } c k = none := hr
  rw [hr2]
  show configsLookup
    { s with configs := configsInsert c k v s.configs,
             writeCache := s.writeCache ++ [(c, k, v)] } c k = some v
  unfold configsLookup
  show ((configsInsert c k v s.configs).find?
    (fun p => p.1.1 == c && p.1.2 == k)).map Prod.snd = some v
  rw [find?_configsInsert]
  rfl

/-- C7 witness: a concrete cold-cache run of the amended round trip. -/
theorem C7_set_get_roundtrip_witness :
    readCacheLookup initState "acme" "settings" = none ∧
    writeCacheHit initState "acme" "settings" (Json.str "on") = false ∧
    (get_company_config
      (update_company_config initState "acme" "settings" (Json.str "on")).1
      "acme" "settings").2 = some (Json.str "on") :=
  ⟨rfl, rfl, C7_set_get_roundtrip initState "acme" "settings" (Json.str "on") rfl rfl⟩

/-- C8: when the file parses but validation fails, upload_file returns
failure with the accumulated error list in the message, raises nothing (it
is a total function returning a value), and leaves the staging tables
untouched: the only state change is the read-cache entry added by the
config lookup of the validator. -/
theorem C8_upload_invalid (s : AppState) (df : DataFrame)
    (company_id data_type : String)
    (hinv : (validate_data s.cm df company_id data_type).2.valid = false) :
    upload_file s (some df) company_id data_type =
      ({ s with cm := (validate_data s.cm df company_id data_type).1 }, false,
        UploadMsg.validationFailed
          (validate_data s.cm df company_id data_type).2.errors) ∧
    (upload_file s (some df) company_id data_type).1.tables = s.tables := by
  have h : upload_file s (some df) company_id data_type =
      ({ s with cm := (validate_data s.cm df company_id data_type).1 }, false,
        UploadMsg.validationFailed
          (validate_data s.cm df company_id data_type).2.errors) := by
    simp [upload_file, hinv]
  exact ⟨h, by rw [h]⟩

/-- A sales dataset missing its required product_line, units_sold and
revenue columns. -/
def C8df : DataFrame := DataFrame.mk [("date", [Value.date (Date.mk 2023 5 1)])]

/-- C8 witness: a concrete failing upload. -/
theorem C8_upload_invalid_witness :
    (validate_data initState C8df "t" "sales").2.valid = false ∧
    upload_file (AppState.mk initState []) (some C8df) "t" "sales" =
      ({ AppState.mk initState [] with
          cm := (validate_data initState C8df "t" "sales").1 }, false,
        UploadMsg.validationFailed
          (validate_data initState C8df "t" "sales").2.errors) ∧
    (upload_file (AppState.mk initState []) (some C8df) "t" "sales").1.tables =
      ([] : List (String × DataFrame)) :=
  have h := C8_upload_invalid (AppState.mk initState []) C8df "t" "sales" (by decide)
  ⟨by decide, h.1, h.2⟩

/-- Whether an error is the missing-required-columns error. -/
def VError.isMissing : VError → Bool
  | .missingColumns _ => true
  | _ => false

theorem typeErrorFor_shape (df : DataFrame) (p : String × String) (e : VError)
    (h : typeErrorFor df p = some e) :
    e = VError.badDate p.1 ∨ e = VError.notNumeric p.1 := by
  unfold typeErrorFor at h
  split at h
  · split at h
    · split at h
      · exact absurd h (by simp)
      · injection h with h1
        exact Or.inl h1.symm
    · split at h
      · split at h
        · exact absurd h (by simp)
        · injection h with h1
          exact Or.inr h1.symm
      · exact absurd h (by simp)
  · exact absurd h (by simp)

theorem negErrorFor_shape (df : DataFrame) (col : String) (e : VError)
    (h : negErrorFor df col = some e) : e = VError.negativeValues col := by
  unfold negErrorFor at h
  split at h
  · injection h with h1
    exact h1.symm
  · exact absurd h (by simp)

theorem pctErrorFor_shape (df : DataFrame) (col : String) (e : VError)
    (h : pctErrorFor df col = some e) : e = VError.percentOutOfRange col := by
  unfold pctErrorFor at h
  split at h
  · injection h with h1
    exact h1.symm
  · exact absurd h (by simp)

theorem dateErrors_shape (df : DataFrame) (e : VError) (h : e ∈ dateErrors df) :
    e = VError.dateRange ∨ e = VError.invalidDateFormat := by
  unfold dateErrors at h
  split at h
  · split at h
    · split at h
      · exact Or.inl (List.mem_singleton.mp h)
      · exact absurd h (List.not_mem_nil e)
    · exact Or.inr (List.mem_singleton.mp h)
  · exact absurd h (List.not_mem_nil e)

theorem mem_validate_data_types (df : DataFrame) (data_type : String) (e : VError)
    (h : e ∈ validate_data_types df data_type) :
    ∃ p ∈ type_validations data_type,
      e = VError.badDate p.1 ∨ e = VError.notNumeric p.1 := by
  unfold validate_data_types at h
  rcases List.mem_filterMap.mp h with ⟨p, hp, hpe⟩
  exact ⟨p, hp, typeErrorFor_shape df p e hpe⟩

theorem mem_validate_business_rules (df : DataFrame) (data_type : String) (e : VError)
    (h : e ∈ validate_business_rules df data_type) :
    (∃ col, e = VError.negativeValues col) ∨ e = VError.dateRange ∨
      e = VError.invalidDateFormat ∨ (∃ col, e = VError.percentOutOfRange col) := by
  unfold validate_business_rules at h
  rcases List.mem_append.mp h with h1 | h2
  · rcases List.mem_append.mp h1 with h3 | h4
    · rcases List.mem_filterMap.mp h3 with ⟨col, _, hc⟩
      exact Or.inl ⟨col, negErrorFor_shape df col e hc⟩
    · rcases dateErrors_shape df e h4 with h5 | h5
      · exact Or.inr (Or.inl h5)
      · exact Or.inr (Or.inr (Or.inl h5))
  · rcases List.mem_filterMap.mp h2 with ⟨col, _, hc⟩
    exact Or.inr (Or.inr (Or.inr ⟨col, pctErrorFor_shape df col e hc⟩))

/-- The errors list of validate_data, by definition. -/
theorem validate_errors_eq (s : CMState) (df : DataFrame)
    (company_id data_type : String) :
    (validate_data s df company_id data_type).2.errors =
      (if (missing_required_columns df data_type).isEmpty then []
        else [VError.missingColumns (missing_required_columns df data_type)]) ++
        validate_data_types df data_type ++ validate_business_rules df data_type := rfl

/-- The valid flag of validate_data, by definition. -/
theorem validate_valid_eq (s : CMState) (df : DataFrame)
    (company_id data_type : String) :
    (validate_data s df company_id data_type).2.valid =
      ((validate_data s df company_id data_type).2.errors).isEmpty := rfl

theorem hasCol_extend (df : DataFrame) (fill : List (String × List Value)) (c : String) :
    (df.extend fill).hasCol c = true ↔
      df.hasCol c = true ∨ c ∈ fill.map Prod.fst := by
  rw [hasCol_iff, hasCol_iff]
  constructor
  · rintro ⟨p, hp, hpc⟩
    rcases List.mem_append.mp hp with h | h
    · exact Or.inl ⟨p, h, hpc⟩
    · exact Or.inr (List.mem_map.mpr ⟨p, h, hpc⟩)
  · rintro (⟨p, hp, hpc⟩ | h)
    · exact ⟨p, List.mem_append_left _ hp, hpc⟩
    · rcases List.mem_map.mp h with ⟨p, hp, hpc⟩
      exact ⟨p, List.mem_append_right _ hp, hpc⟩

/-- C4: validate_data returns valid exactly when the accumulated error list
is empty; when required canonical columns are missing it returns invalid
with exactly one missing-columns error naming exactly the missing columns;
and extending the dataset with exactly those columns, with values passing
the type and business-rule checks, flips the result to valid. -/
theorem C4_validate_missing_columns (s : CMState) (df : DataFrame)
    (company_id data_type : String) :
    ((validate_data s df company_id data_type).2.valid = true ↔
      (validate_data s df company_id data_type).2.errors = []) ∧
    (missing_required_columns df data_type ≠ [] →
      (validate_data s df company_id data_type).2.valid = false ∧
      (validate_data s df company_id data_type).2.errors.filter VError.isMissing =
        [VError.missingColumns (missing_required_columns df data_type)]) ∧
    (∀ fill : List (String × List Value),
      fill.map Prod.fst = missing_required_columns df data_type →
      validate_data_types (df.extend fill) data_type = [] →
      validate_business_rules (df.extend fill) data_type = [] →
      (validate_data s (df.extend fill) company_id data_type).2.valid = true) := by
  refine ⟨?_, ?_, ?_⟩
  · rw [validate_valid_eq, List.isEmpty_iff]
  · intro hmiss
    have hie : (missing_required_columns df data_type).isEmpty = false := by
      rcases hm : missing_required_columns df data_type with _ | ⟨a, l⟩
      · exact absurd hm hmiss
      · rfl
    constructor
    · rw [validate_valid_eq, validate_errors_eq, hie]
      rfl
    · rw [validate_errors_eq, hie]
      rw [List.filter_append, List.filter_append]
      have h1 : (validate_data_types df data_type).filter VError.isMissing = [] := by
        rw [List.filter_eq_nil_iff]
        intro e he
        rcases mem_validate_data_types df data_type e he with ⟨p, _, h | h⟩ <;>
          · rw [h]
            simp [VError.isMissing]
      have h2 : (validate_business_rules df data_type).filter VError.isMissing = [] := by
        rw [List.filter_eq_nil_iff]
        intro e he
        rcases mem_validate_business_rules df data_type e he with
          ⟨col, h⟩ | h | h | ⟨col, h⟩ <;>
          · rw [h]
            simp [VError.isMissing]
      rw [h1, h2]
      rfl
  · intro fill hnames ht hr
    have hmiss2 : missing_required_columns (df.extend fill) data_type = [] := by
      unfold missing_required_columns
      rw [List.filter_eq_nil_iff]
      intro col hcol hnc
      have hhas : (df.extend fill).hasCol col = true := by
        rcases hdc : df.hasCol col with _ | _
        · apply (hasCol_extend df fill col).mpr
          apply Or.inr
          rw [hnames]
          unfold missing_required_columns
          exact List.mem_filter.mpr ⟨hcol, by rw [hdc]; rfl⟩
        · exact (hasCol_extend df fill col).mpr (Or.inl hdc)
      rw [hhas] at hnc
      exact absurd hnc (by decide)
    rw [validate_valid_eq, validate_errors_eq, hmiss2, ht, hr]
    rfl

/-- A sales dataset missing only the required product_line column, with all
present values well-typed and in range. -/
def C4df : DataFrame := DataFrame.mk [
  ("date", [Value.date (Date.mk 2024 3 1)]),
  ("units_sold", [Value.num 5]),
  ("revenue", [Value.num 10])]

/-- C4 witness: a concrete run of the missing-column scenario and its
flip to valid after adding the column. -/
theorem C4_validate_missing_columns_witness :
    missing_required_columns C4df "sales" = ["product_line"] ∧
    (validate_data initState C4df "t" "sales").2.valid = false ∧
    (validate_data initState C4df "t" "sales").2.errors.filter VError.isMissing =
      [VError.missingColumns ["product_line"]] ∧
    (validate_data initState (C4df.extend [("product_line", [Value.str "A"])])
      "t" "sales").2.valid = true := by
  have h := C4_validate_missing_columns initState C4df "t" "sales"
  have h2 := h.2.1 (by decide)
  exact ⟨by decide, h2.1, h2.2,
    h.2.2 [("product_line", [Value.str "A"])] (by decide) (by decide) (by decide)⟩

theorem positive_columns_nodup (data_type : String) :
    (positive_columns data_type).Nodup := by
  unfold positive_columns
  split
  · decide
  · split
    · decide
    · split
      · decide
      · decide

theorem count_negErrorFor_filterMap (df : DataFrame) (col : String) :
    ∀ l : List String, l.Nodup → col ∈ l →
      (df.hasCol col && hasNegative (df.getCol col)) = true →
      ((l.filterMap (negErrorFor df)).count (VError.negativeValues col)) = 1 := by
  intro l
  induction l with
  | nil =>
      intro _ hmem _
      exact absurd hmem (List.not_mem_nil col)
  | cons a as ih =>
      intro hnd hmem hcond
      rcases List.mem_cons.mp hmem with rfl | hmem'
      · rw [List.filterMap_cons]
        have hsome : negErrorFor df col = some (VError.negativeValues col) := by
          unfold negErrorFor
          rw [if_pos hcond]
        rw [hsome, List.count_cons_self]
        have hnotin : VError.negativeValues col ∉ as.filterMap (negErrorFor df) := by
          intro hmem2
          rcases List.mem_filterMap.mp hmem2 with ⟨b, hb, hfb⟩
          have hbe := negErrorFor_shape df b _ hfb
          injection hbe with hbe1
          exact (List.nodup_cons.mp hnd).1 (hbe1 ▸ hb)
        rw [List.count_eq_zero.mpr hnotin]
      · have hane : a ≠ col := fun h => (List.nodup_cons.mp hnd).1 (h ▸ hmem')
        rw [List.filterMap_cons]
        cases hfa : negErrorFor df a with
        | none => exact ih (List.nodup_cons.mp hnd).2 hmem' hcond
        | some b =>
            rw [negErrorFor_shape df a b hfa]
            rw [List.count_cons_of_ne
              (fun h => hane (VError.negativeValues.inj h).symm)]
            exact ih (List.nodup_cons.mp hnd).2 hmem' hcond

/-- C5: a designated non-negative column that is present and contains at
least one negative value contributes exactly one negative-values error for
that column to the error list of validate_data, whatever else the dataset holds. -/
theorem C5_negative_flagged (s : CMState) (df : DataFrame)
    (company_id data_type col : String)
    (hmem : col ∈ positive_columns data_type)
    (hcol : df.hasCol col = true)
    (hneg : hasNegative (df.getCol col) = true) :
    (validate_data s df company_id data_type).2.errors.count
      (VError.negativeValues col) = 1 := by
  rw [validate_errors_eq, List.count_append, List.count_append]
  have hm0 : (if (missing_required_columns df data_type).isEmpty then ([] : List VError)
      else [VError.missingColumns (missing_required_columns df data_type)]).count
      (VError.negativeValues col) = 0 := by
    split
    · rfl
    · rw [List.count_eq_zero]
      intro hmm
      exact VError.noConfusion (List.mem_singleton.mp hmm)
  have ht0 : (validate_data_types df data_type).count (VError.negativeValues col) = 0 := by
    rw [List.count_eq_zero]
    intro hmm
    rcases mem_validate_data_types df data_type _ hmm with ⟨p, _, h | h⟩
    · exact VError.noConfusion h
    · exact VError.noConfusion h
  have hr : (validate_business_rules df data_type).count
      (VError.negativeValues col) = 1 := by
    unfold validate_business_rules
    rw [List.count_append, List.count_append]
    have hd0 : (dateErrors df).count (VError.negativeValues col) = 0 := by
      rw [List.count_eq_zero]
      intro hmm
      rcases dateErrors_shape df _ hmm with h | h
      · exact VError.noConfusion h
      · exact VError.noConfusion h
    have hp0 : ((percentage_columns data_type).filterMap (pctErrorFor df)).count
        (VError.negativeValues col) = 0 := by
      rw [List.count_eq_zero]
      intro hmm
      rcases List.mem_filterMap.mp hmm with ⟨b, _, hfb⟩
      exact VError.noConfusion (pctErrorFor_shape df b _ hfb)
    have hn1 : ((positive_columns data_type).filterMap (negErrorFor df)).count
        (VError.negativeValues col) = 1 :=
      count_negErrorFor_filterMap df col (positive_columns data_type)
        (positive_columns_nodup data_type) hmem (by rw [hcol, hneg]; rfl)
    rw [hn1, hd0, hp0]
  rw [hm0, ht0, hr]

/-- A 3-row sales dataset whose revenue column holds one negative value
among otherwise valid rows. -/
def C5df : DataFrame := DataFrame.mk [
  ("date", [Value.date (Date.mk 2023 1 1), Value.date (Date.mk 2023 1 2),
    Value.date (Date.mk 2023 1 3)]),
  ("product_line", [Value.str "A", Value.str "B", Value.str "A"]),
  ("units_sold", [Value.num 1, Value.num 2, Value.num 3]),
  ("revenue", [Value.num 100, Value.num (-5), Value.num 50])]

/-- C5 witness: the single negative revenue cell yields exactly one
negative-values error for revenue. -/
theorem C5_negative_flagged_witness :
    ("revenue" ∈ positive_columns "sales") ∧
    C5df.hasCol "revenue" = true ∧
    hasNegative (C5df.getCol "revenue") = true ∧
    (validate_data initState C5df "t" "sales").2.errors.count
      (VError.negativeValues "revenue") = 1 :=
  ⟨by decide, by decide, by decide,
    C5_negative_flagged initState C5df "t" "sales" "revenue"
      (by decide) (by decide) (by decide)⟩

theorem dateErrors_eq_of_parse (df : DataFrame) (dates : List Date)
    (hcol : df.hasCol "date" = true)
    (hparse : toDatetime (df.getCol "date") = some dates) :
    dateErrors df = if dates.any (fun d => Date.ltb d minDate) ||
        dates.any (fun d => Date.ltb maxDate d) then [VError.dateRange] else [] := by
  unfold dateErrors
  rw [if_pos hcol, hparse]

/-- C6: for a dataset whose date column parses, validate_data reports a
date-range error exactly when some date lies strictly before 2020-01-01 or
strictly after 2030-12-31; the two boundary dates themselves are accepted. -/
theorem C6_date_range (s : CMState) (df : DataFrame) (company_id data_type : String)
    (dates : List Date)
    (hcol : df.hasCol "date" = true)
    (hparse : toDatetime (df.getCol "date") = some dates) :
    VError.dateRange ∈ (validate_data s df company_id data_type).2.errors ↔
      (dates.any (fun d => Date.ltb d minDate) = true ∨
        dates.any (fun d => Date.ltb maxDate d) = true) := by
  rw [validate_errors_eq]
  constructor
  · intro h
    rcases List.mem_append.mp h with h1 | h2
    · rcases List.mem_append.mp h1 with h3 | h4
      · revert h3
        split
        · intro h3
          exact absurd h3 (List.not_mem_nil _)
        · intro h3
          exact VError.noConfusion (List.mem_singleton.mp h3)
      · rcases mem_validate_data_types df data_type _ h4 with ⟨p, _, h | h⟩
        · exact VError.noConfusion h
        · exact VError.noConfusion h
    · unfold validate_business_rules at h2
      rcases List.mem_append.mp h2 with h5 | h6
      · rcases List.mem_append.mp h5 with h7 | h8
        · rcases List.mem_filterMap.mp h7 with ⟨b, _, hfb⟩
          exact VError.noConfusion (negErrorFor_shape df b _ hfb)
        · rw [dateErrors_eq_of_parse df dates hcol hparse] at h8
          by_cases hc : (dates.any (fun d => Date.ltb d minDate) ||
              dates.any (fun d => Date.ltb maxDate d)) = true
          · exact (Bool.or_eq_true _ _).mp hc
          · rw [if_neg hc] at h8
            exact absurd h8 (List.not_mem_nil _)
      · rcases List.mem_filterMap.mp h6 with ⟨b, _, hfb⟩
        exact VError.noConfusion (pctErrorFor_shape df b _ hfb)
  · intro h
    refine List.mem_append_right _ ?_
    unfold validate_business_rules
    refine List.mem_append_left _ (List.mem_append_right _ ?_)
    rw [dateErrors_eq_of_parse df dates hcol hparse]
    rw [if_pos ((Bool.or_eq_true _ _).mpr h)]
    exact List.mem_singleton.mpr rfl

/-- A dataset whose two dates sit exactly on the allowed-range boundaries. -/
def C6df : DataFrame := DataFrame.mk
  [("date", [Value.date (Date.mk 2020 1 1), Value.date (Date.mk 2030 12 31)])]

/-- C6 witness: the boundary dates 2020-01-01 and 2030-12-31 are accepted —
no date-range error is reported. -/
theorem C6_date_range_witness :
    C6df.hasCol "date" = true ∧
    toDatetime (C6df.getCol "date") = some [Date.mk 2020 1 1, Date.mk 2030 12 31] ∧
    (VError.dateRange ∈ (validate_data initState C6df "t" "sales").2.errors ↔
      ([Date.mk 2020 1 1, Date.mk 2030 12 31].any (fun d => Date.ltb d minDate) = true ∨
        [Date.mk 2020 1 1, Date.mk 2030 12 31].any (fun d => Date.ltb maxDate d) = true)) ∧
    VError.dateRange ∉ (validate_data initState C6df "t" "sales").2.errors :=
  ⟨by decide, by decide,
    C6_date_range initState C6df "t" "sales" [Date.mk 2020 1 1, Date.mk 2030 12 31]
      (by decide) (by decide),
    by decide⟩

/-- Store after createTenant acme with industry Manufacturing on a fresh
database. -/
def C2state : CMState :=
  (create_company initState "acme" "Acme Corp" (some "Manufacturing") none none).1

/-- A 2-row sales dataset using the Manufacturing tenant-specific column
names of the seeded default mapping. -/
def C2df : DataFrame := DataFrame.mk [
  ("product_category", [Value.str "Electronics", Value.str "Automotive"]),
  ("location", [Value.str "North America", Value.str "Europe"]),
  ("client_type", [Value.str "Wholesale", Value.str "Retail"]),
  ("date", [Value.date (Date.mk 2023 1 1), Value.date (Date.mk 2023 1 2)]),
  ("units_sold", [Value.num 100, Value.num 200]),
  ("revenue", [Value.num 1000, Value.num 2000])]

/-- C2: after createTenant acme/Manufacturing the seeded product lines are
Electronics/Automotive/Machinery/Textiles as claimed, but applying
transform_company_data with the seeded default sales mapping renames the
tenant columns to the role-name keys of the mapping (product_column,
region_column, customer_column, ...), NOT to the canonical dbt columns
product_line, region, customer_segment: the code contradicts its own
stated purpose of mapping company data to the dbt schema. -/
theorem C2_manufacturing_defaults :
    (get_company_config C2state "acme" "products").2 =
      some (Json.obj [("product_lines", Json.arr
        [Json.str "Electronics", Json.str "Automotive",
          Json.str "Machinery", Json.str "Textiles"])]) ∧
    (transform_company_data C2state C2df "acme" "sales").2.columns =
      ["product_column", "region_column", "customer_column", "date_column",
        "quantity_column", "revenue_column", "company_id"] ∧
    (transform_company_data C2state C2df "acme" "sales").2.columns ≠
      ["product_line", "region", "customer_segment", "date",
        "units_sold", "revenue", "company_id"] :=
  ⟨rfl, rfl, by decide⟩

/-- Store after createTenant with an industry absent from the default
lookup table. -/
def C3state : CMState :=
  (create_company initState "startup" "Startup Inc" (some "Quantum Farming") none none).1

/-- The base sales mapping as seeded (role-name keys, canonical values). -/
def baseSalesMappingJson : List (String × Json) :=
  [("product_column", Json.str "product_line"),
    ("region_column", Json.str "region"),
    ("customer_column", Json.str "customer_segment"),
    ("date_column", Json.str "date"),
    ("quantity_column", Json.str "units_sold"),
    ("revenue_column", Json.str "revenue"),
    ("cost_column", Json.str "cost_of_goods")]

/-- The base esg mapping as seeded (role-name keys, canonical values). -/
def baseEsgMappingJson : List (String × Json) :=
  [("product_column", Json.str "product_line"),
    ("facility_column", Json.str "facility"),
    ("date_column", Json.str "date"),
    ("emissions_column", Json.str "emissions_kg_co2"),
    ("energy_column", Json.str "energy_consumption_kwh"),
    ("water_column", Json.str "water_usage_liters")]

/-- C3 counterexample: for an unknown industry the seeded sales mapping is
the role-keyed base mapping (product_column maps to product_line, and so
on); it is NOT an identity mapping sending every canonical column name to
itself — its very first entry has key product_column and value
product_line. -/
theorem C3_counterexample :
    (get_company_schema_mapping C3state "startup" "sales").2 = baseSalesMappingJson ∧
    ¬ (∀ p ∈ (get_company_schema_mapping C3state "startup" "sales").2,
        p.2 = Json.str p.1) := by
  have hm : (get_company_schema_mapping C3state "startup" "sales").2 =
      baseSalesMappingJson := rfl
  refine ⟨hm, ?_⟩
  intro hall
  have h := hall ("product_column", Json.str "product_line")
    (by rw [hm]; exact List.mem_cons_self _ _)
  injection h with h1
  exact absurd h1 (by decide)

theorem get_default_products_unknown (industry : Option String)
    (hind : ∀ i : String, industry = some i →
      industry_products.find? (fun p => p.1 == i) = none) :
    get_default_products industry = ["Product A", "Product B", "Product C"] := by
  cases industry with
  | none => rfl
  | some i =>
      show ((industry_products.find? (fun p => p.1 == i)).map Prod.snd).getD
        ["Product A", "Product B", "Product C"] =
        ["Product A", "Product B", "Product C"]
      rw [hind i rfl]
      rfl

theorem industry_mappings_find_none (i : String)
    (h6 : industry_products.find? (fun p => p.1 == i) = none) :
    industry_mappings.find? (fun p => p.1 == i) = none := by
  rw [List.find?_eq_none] at h6 ⊢
  intro x hx
  unfold industry_mappings at hx
  rcases List.mem_cons.mp hx with rfl | hx2
  · exact h6 ("Manufacturing", ["Electronics", "Automotive", "Machinery", "Textiles"])
      (by decide)
  rcases List.mem_cons.mp hx2 with rfl | hx3
  · exact h6 ("Retail", ["Apparel", "Electronics", "Home Goods", "Food"]) (by decide)
  · exact absurd hx3 (List.not_mem_nil x)

theorem get_default_schema_mappings_unknown (industry : Option String)
    (hind : ∀ i : String, industry = some i →
      industry_products.find? (fun p => p.1 == i) = none) :
    get_default_schema_mappings industry = base_mappings := by
  cases industry with
  | none => rfl
  | some i =>
      unfold get_default_schema_mappings
      simp [industry_mappings_find_none i (hind i rfl)]

theorem create_company_fresh (company_id company_name : String)
    (industry description : Option String) (settings : Option Json) :
    (create_company initState company_id company_name industry description settings).1 =
      CMState.mk
        [CompanyRow.mk company_id company_name (industry.getD "") (description.getD "")
          (settings.getD (Json.obj []))]
        [((company_id, "products"), Json.obj [("product_lines",
            strListToJson (get_default_products industry))]),
          ((company_id, "schema"), Json.obj [("mappings",
            mappingsToJson (get_default_schema_mappings industry))]),
          ((company_id, "metrics"), metricsToJson (get_default_metrics industry))]
        []
        [(company_id, "products", Json.obj [("product_lines",
            strListToJson (get_default_products industry))]),
          (company_id, "schema", Json.obj [("mappings",
            mappingsToJson (get_default_schema_mappings industry))]),
          (company_id, "metrics", metricsToJson (get_default_metrics industry))]
        [CompanyRow.mk company_id company_name (industry.getD "") (description.getD "")
          (settings.getD (Json.obj []))] := by
  simp +decide [create_company, initialize_default_configs, update_company_config,
    writeCacheHit, configsInsert, companyInsertCacheHit, initState]

/-- C3 amended: for every industry string absent from the default lookup
table (including a missing industry), createTenant seeds the generic
three-item product list Product A/B/C and the base schema mapping — the
role-keyed mapping whose values are the canonical column names (for
example product_column maps to product_line), which is not a mapping of
every canonical column name to itself. -/
theorem C3_unknown_industry_defaults
    (company_id company_name : String) (industry description : Option String)
    (settings : Option Json)
    (hind : ∀ i : String, industry = some i →
      industry_products.find? (fun p => p.1 == i) = none) :
    (get_company_config (create_company initState company_id company_name
        industry description settings).1 company_id "products").2 =
      some (Json.obj [("product_lines", Json.arr
        [Json.str "Product A", Json.str "Product B", Json.str "Product C"])]) ∧
    (get_company_schema_mapping (create_company initState company_id company_name
        industry description settings).1 company_id "sales").2 =
      baseSalesMappingJson ∧
    (get_company_schema_mapping (create_company initState company_id company_name
        industry description settings).1 company_id "esg").2 =
      baseEsgMappingJson := by
  rw [create_company_fresh company_id company_name industry description settings,
    get_default_products_unknown industry hind,
    get_default_schema_mappings_unknown industry hind]
  refine ⟨?_, ?_, ?_⟩
  · simp +decide [get_company_config, readCacheLookup, configsLookup, List.find?,
      strListToJson]
  · simp +decide [get_company_schema_mapping, get_company_config, readCacheLookup,
      configsLookup, List.find?, Json.truthy, Json.lookup, Json.objFields,
      mappingsToJson, strMapToJson, base_mappings, baseSalesMappingJson]
  · simp +decide [get_company_schema_mapping, get_company_config, readCacheLookup,
      configsLookup, List.find?, Json.truthy, Json.lookup, Json.objFields,
      mappingsToJson, strMapToJson, base_mappings, baseEsgMappingJson]

/-- C3 witness: a concrete run of the amended theorem with no industry. -/
theorem C3_unknown_industry_defaults_witness :
    (∀ i : String, (none : Option String) = some i →
      industry_products.find? (fun p => p.1 == i) = none) ∧
    ((get_company_config (create_company initState "c" "n" none none none).1
        "c" "products").2 =
      some (Json.obj [("product_lines", Json.arr
        [Json.str "Product A", Json.str "Product B", Json.str "Product C"])]) ∧
    (get_company_schema_mapping (create_company initState "c" "n" none none none).1
        "c" "sales").2 = baseSalesMappingJson ∧
    (get_company_schema_mapping (create_company initState "c" "n" none none none).1
        "c" "esg").2 = baseEsgMappingJson) :=
  ⟨fun i h => Option.noConfusion h,
    C3_unknown_industry_defaults "c" "n" none none none
      (fun i h => Option.noConfusion h)⟩

end EcoMetrics
